import Mathlib

/-!
Shallow embedding of the pi-monitor websocket core
(`src/app/handlers/websocket.py`), together with theorems checking the
natural-language specification against it.

The embedded pieces:
- the worker registry and the `open` handler (token handoff, admission),
- the two push-loop coroutines `monitor` and `network`,
- `on_message`, `on_close` and `check_origin`,
- the module-level `ThreadPoolExecutor(max_workers=16)`.

The `Worker` class and the `workers` registry live in `app/handlers/base.py`,
which is not part of the sources given; where their behaviour decides a
claim the corresponding definition is modelled from the spec and says so in
its doc comment.  Everything else is translated directly from
`websocket.py`, with Tornado / stdlib primitives (`dict.pop`,
`get_argument`, `run_in_executor`, `write_message`) given their documented
semantics.
-/

namespace PiMonitor

/-- Lifecycle states of a Worker.  Modelled from the spec: the `Worker`
class in `app/handlers/base.py` is absent from the sources; the spec gives
its states as `pending | bound | closed`. -/
inductive WorkerState where
  | pending
  | bound
  | closed
deriving DecidableEq, Repr

/-- Modelled from the spec: the `Worker` entity of `app/handlers/base.py`
(absent from the sources): an opaque id, a lifecycle state, and a handler
reference set once at bind time (`worker.set_handler(self)` in
`websocket.py`). -/
structure Worker where
  id : String
  state : WorkerState
  handler : Option Nat
deriving DecidableEq, Repr

/-- The process-wide registry `workers` (a Python `dict`, used via
`workers.pop(id, None)` in `websocket.py`), embedded as an association
list whose keys are unique in well-formed states. -/
abbrev Registry := List (String × Worker)

/-- Python `dict` key lookup on the registry (`t in workers` /
`workers[t]`). -/
def lookupW : Registry → String → Option Worker
  | [], _ => none
  | (k, w) :: rest, t => if k = t then some w else lookupW rest t

/-- Python `dict.pop(key, None)`: remove and return the entry for `key`
if present, otherwise return `None` and leave the dict unchanged. -/
def popWorker : Registry → String → Option Worker × Registry
  | [], _ => (none, [])
  | (k, w) :: rest, t =>
      if k = t then (some w, rest)
      else
        let r := popWorker rest t
        (r.1, (k, w) :: r.2)

/-- Observable actions the handler performs on its socket / scheduler,
in program order. -/
inductive Action where
  | setNodelay
  | setHandler
  | writeFrame (s : String)
  | scheduleMonitor
  | runMonitorInline
  | submitPool
  | awaitResult
  | collectDirect
  | sleep (ms : Nat)
  | closeConn (reason : String)
deriving DecidableEq, Repr

/-- The acknowledgement frame sent by `open` on a successful handoff. -/
def ackFrame : String := "connected to monitor, transmitting data..."

/-- Tornado `RequestHandler.get_argument(name)` without a default:
raises `MissingArgumentError` when the argument is absent from the
request; a present-but-empty value is returned as the empty string
(Tornado parses query strings keeping blank values). -/
def getArgument : Option String → Except Unit String
  | none => Except.error ()
  | some s => Except.ok s

/-- How a call to `open` ends. -/
inductive OpenOutcome where
  | protocolError
  | closedInvalidId
  | sessionStarted
deriving DecidableEq, Repr

/-- The full result of `WebsocketHandler.open`: the outcome, the actions
performed in order, the stored weak worker reference
(`self.worker_ref`), and the registry afterwards. -/
structure OpenResult where
  outcome : OpenOutcome
  actions : List Action
  workerRef : Option String
  registry : Registry
deriving DecidableEq, Repr

/-- `WebsocketHandler.open` (websocket.py lines 69-87):
`worker = workers.pop(self.get_argument('id'), None)`; if no worker,
`self.close(reason='Invalid worker id')` and return; otherwise
`set_nodelay(True)`, `worker.set_handler(self)`,
`self.worker_ref = weakref.ref(worker)`, write the acknowledgement
frame, and `IOLoop.current().add_callback(self.monitor)`. -/
def wsOpen (idArg : Option String) (reg : Registry) : OpenResult :=
  match getArgument idArg with
  | Except.error _ => ⟨OpenOutcome.protocolError, [], none, reg⟩
  | Except.ok t =>
      match popWorker reg t with
      | (none, reg') =>
          ⟨OpenOutcome.closedInvalidId, [Action.closeConn "Invalid worker id"], none, reg'⟩
      | (some w, reg') =>
          ⟨OpenOutcome.sessionStarted,
           [Action.setNodelay, Action.setHandler,
            Action.writeFrame ackFrame, Action.scheduleMonitor],
           some w.id, reg'⟩

/-- `WebsocketHandler.check_origin` (websocket.py lines 55-66):
`return True`. -/
def check_origin (origin : String) : Bool := true

/-- `WebsocketHandler.on_message` (websocket.py lines 127-137):
`self.write_message('message received %s' % message)` — the list of
frames written in response to one inbound message. -/
def on_message (message : String) : List String :=
  ["message received " ++ message]

/-- Exceptions that can arise inside a push-loop iteration:
`StreamClosedError`, `WebSocketClosedError`, or anything else (indexed by
an opaque code). -/
inductive Exc where
  | streamClosed
  | wsClosed
  | other (code : Nat)
deriving DecidableEq, Repr

/-- One iteration's environment for a push loop: what the collector call
returns (or raises), and whether the socket write succeeds (or raises).
A loop run is evaluated against a finite script of these. -/
structure Iter where
  collect : Except Exc String
  write : Except Exc Unit
deriving Repr

/-- The `except (StreamClosedError, WebSocketClosedError): pass` clause of
`WebsocketHandler.monitor` (websocket.py line 102): which exceptions the
loop absorbs silently. -/
def monitorAbsorbs : Exc → Bool
  | Exc.streamClosed => true
  | Exc.wsClosed => true
  | Exc.other _ => false

/-- The two separate `except StreamClosedError: pass` and
`except WebSocketClosedError: pass` clauses of `WebsocketHandler.network`
(websocket.py lines 119-122). -/
def networkAbsorbs : Exc → Bool
  | Exc.streamClosed => true
  | Exc.wsClosed => true
  | Exc.other _ => false

/-- The `while True` body of `WebsocketHandler.monitor` (lines 97-101):
each iteration awaits `run_in_executor(executor, system_data)`, then
writes the result only when it is truthy (`if data:`).  Returns the
frames successfully written and the exception that ended the loop, or
`none` when the script ran out with the loop still spinning (the loop
has no other exit). -/
def monitorBody : List Iter → Option (List String × Exc)
  | [] => none
  | it :: rest =>
      match it.collect with
      | Except.error e => some ([], e)
      | Except.ok data =>
          if data = "" then monitorBody rest
          else
            match it.write with
            | Except.error e => some ([], e)
            | Except.ok _ =>
                (monitorBody rest).map (fun r => (data :: r.1, r.2))

/-- The `while True` body of `WebsocketHandler.network` (lines 116-118):
each iteration awaits `network_data()` directly and writes the result
unconditionally. -/
def networkBody : List Iter → Option (List String × Exc)
  | [] => none
  | it :: rest =>
      match it.collect with
      | Except.error e => some ([], e)
      | Except.ok data =>
          match it.write with
          | Except.error e => some ([], e)
          | Except.ok _ =>
              (networkBody rest).map (fun r => (data :: r.1, r.2))

/-- Result of a completed push-loop run: frames written, the exception
that propagated out of the coroutine (if any), and whether the `finally`
block's `self.close()` ran. -/
structure LoopResult where
  frames : List String
  raised : Option Exc
  closeCalled : Bool
deriving DecidableEq, Repr

/-- `WebsocketHandler.monitor` (lines 90-105): run the body, absorb the
two terminal I/O exceptions silently, let everything else propagate, and
always run `self.close()` in the `finally` block. -/
def monitorRun (script : List Iter) : Option LoopResult :=
  (monitorBody script).map (fun r =>
    { frames := r.1
      raised := if monitorAbsorbs r.2 then none else some r.2
      closeCalled := true })

/-- `WebsocketHandler.network` (lines 108-124): same shape, with its own
two `except` clauses and its own `finally: self.close()`. -/
def networkRun (script : List Iter) : Option LoopResult :=
  (networkBody script).map (fun r =>
    { frames := r.1
      raised := if networkAbsorbs r.2 then none else some r.2
      closeCalled := true })

/-- Scheduler-level action trace of `monitor`: each iteration submits the
blocking `system_data` call to the executor pool and suspends
(`await run_in_executor`), then writes only a truthy result.  There is no
sleep and no direct (non-pool) collector call anywhere in the loop. -/
def monitorTrace : List Iter → List Action
  | [] => []
  | it :: rest =>
      Action.submitPool :: Action.awaitResult ::
        (match it.collect with
         | Except.error _ => []
         | Except.ok data =>
             if data = "" then monitorTrace rest
             else
               Action.writeFrame data ::
                 (match it.write with
                  | Except.error _ => []
                  | Except.ok _ => monitorTrace rest))

/-- Scheduler-level action trace of `network`: each iteration awaits
`network_data()` directly on the scheduler (no pool submission) and
writes every fetched result, empty or not. -/
def networkTrace : List Iter → List Action
  | [] => []
  | it :: rest =>
      Action.collectDirect ::
        (match it.collect with
         | Except.error _ => []
         | Except.ok data =>
             Action.writeFrame data ::
               (match it.write with
                | Except.error _ => []
                | Except.ok _ => networkTrace rest))

/-- Worker store for the teardown model: live workers by id and their
state; a worker absent from the store has been garbage-collected, so the
weak reference to it no longer resolves. -/
abbrev Store := List (String × WorkerState)

/-- Lookup of a live worker's state in the store. -/
def lookupS : Store → String → Option WorkerState
  | [], _ => none
  | (k, st) :: rest, t => if k = t then some st else lookupS rest t

/-- `self.worker_ref() if self.worker_ref else None`: a weak reference
resolves exactly when its target is still live. -/
def resolveRef (ref : Option String) (store : Store) : Option String :=
  match ref with
  | none => none
  | some wid => if (lookupS store wid).isSome then some wid else none

/-- Modelled from the spec: `Worker.close` of `app/handlers/base.py`
(absent from the sources) transitions the worker's state to `closed`. -/
def workerClose (wid : String) (store : Store) : Store :=
  store.map (fun p => if p.1 = wid then (p.1, WorkerState.closed) else p)

/-- `WebsocketHandler.on_close` (websocket.py lines 140-149): resolve the
weak worker reference; if it still resolves to a live worker, close it. -/
def on_close (ref : Option String) (store : Store) : Store :=
  match resolveRef ref store with
  | none => store
  | some wid => workerClose wid store

/-- Per-connection session state for the teardown model: whether the
socket is still open, whether Tornado has dispatched `on_close`, and the
stored weak worker reference. -/
structure Session where
  socketOpen : Bool
  onCloseRan : Bool
  ref : Option String
deriving DecidableEq, Repr

/-- The socket-close event, from any cause: Tornado dispatches `on_close`
exactly once, when the open socket transitions to closed; a close on an
already-closed socket does nothing. -/
def socketClose (s : Session) (store : Store) : Session × Store :=
  if s.socketOpen then
    ({ s with socketOpen := false, onCloseRan := true }, on_close s.ref store)
  else (s, store)

/-- The module-level `executor = ThreadPoolExecutor(max_workers=16)`
(websocket.py lines 15-16), shared by every handler instance. -/
def executorMaxWorkers : Nat := 16

/-- Executor pool state: slot bound, tasks currently running, tasks
queued awaiting a slot. -/
structure Pool where
  maxWorkers : Nat
  running : Nat
  queued : Nat
deriving DecidableEq, Repr

/-- The pool as constructed at module load. -/
def mkExecutor : Pool :=
  { maxWorkers := executorMaxWorkers, running := 0, queued := 0 }

/-- Python `ThreadPoolExecutor.submit` semantics: a submission never
raises and never discards the task; it starts running when a slot is
free and is queued otherwise, while the awaiting coroutine stays
suspended until the task completes. -/
def Pool.submit (p : Pool) : Pool :=
  if p.running < p.maxWorkers then { p with running := p.running + 1 }
  else { p with queued := p.queued + 1 }

/-- Work held by the pool on behalf of submitters. -/
def Pool.pending (p : Pool) : Nat := p.running + p.queued

/-- Checks along an action trace that the number of pool submissions not
yet matched by an await never exceeds one, starting from `k`
outstanding. -/
def okOutstanding : Nat → List Action → Bool
  | _, [] => true
  | k, Action.submitPool :: rest => decide (k + 1 ≤ 1) && okOutstanding (k + 1) rest
  | k, Action.awaitResult :: rest => okOutstanding (k - 1) rest
  | k, _ :: rest => okOutstanding k rest

/-- First frame written in an action sequence, if any. -/
def firstFrame : List Action → Option String
  | [] => none
  | Action.writeFrame s :: _ => some s
  | _ :: rest => firstFrame rest

/-- The result of the `n+1`-st successive connection attempt with token
`t`, each attempt running on the registry its predecessor left behind. -/
def nthAttempt (t : String) : Nat → Registry → OpenResult
  | 0, reg => wsOpen (some t) reg
  | Nat.succ n, reg => nthAttempt t n (wsOpen (some t) reg).registry

/-- A demonstration worker used to instantiate theorems with hypotheses. -/
def demoWorker : Worker := ⟨"t1", WorkerState.pending, none⟩

/-- A demonstration one-entry registry. -/
def demoReg : Registry := [("t1", demoWorker)]

lemma popWorker_fst (reg : Registry) (t : String) :
    (popWorker reg t).1 = lookupW reg t := by
  induction reg with
  | nil => rfl
  | cons p rest ih =>
      obtain ⟨k, w⟩ := p
      by_cases h : k = t
      · simp [popWorker, lookupW, h]
      · simp [popWorker, lookupW, h, ih]

lemma popWorker_miss (reg : Registry) (t : String) (h : lookupW reg t = none) :
    popWorker reg t = (none, reg) := by
  induction reg with
  | nil => rfl
  | cons p rest ih =>
      obtain ⟨k, w⟩ := p
      by_cases hk : k = t
      · simp [lookupW, hk] at h
      · simp [lookupW, hk] at h
        simp [popWorker, hk, ih h]

lemma lookup_eq_none_of_not_mem_keys (reg : Registry) (t : String)
    (h : t ∉ reg.map Prod.fst) : lookupW reg t = none := by
  induction reg with
  | nil => rfl
  | cons p rest ih =>
      obtain ⟨k, w⟩ := p
      simp only [List.map_cons, List.mem_cons, not_or] at h
      simp [lookupW, Ne.symm h.1, ih h.2]

lemma popWorker_lookup_none (reg : Registry) (t : String)
    (hnd : (reg.map Prod.fst).Nodup) :
    lookupW ((popWorker reg t).2) t = none := by
  induction reg with
  | nil => rfl
  | cons p rest ih =>
      obtain ⟨k, w⟩ := p
      simp only [List.map_cons, List.nodup_cons] at hnd
      by_cases h : k = t
      · subst h
        simpa [popWorker] using lookup_eq_none_of_not_mem_keys rest k hnd.1
      · simp [popWorker, h, lookupW]
        exact ih hnd.2

lemma nthAttempt_notFound (t : String) :
    ∀ (n : Nat) (reg : Registry), lookupW reg t = none →
      nthAttempt t n reg =
        ⟨OpenOutcome.closedInvalidId, [Action.closeConn "Invalid worker id"], none, reg⟩ := by
  intro n
  induction n with
  | zero =>
      intro reg h
      simp [nthAttempt, wsOpen, getArgument, popWorker_miss reg t h]
  | succ n ih =>
      intro reg h
      have hpop := popWorker_miss reg t h
      simp [nthAttempt, wsOpen, getArgument, hpop]
      exact ih reg h

/-- C10: the handler's origin check returns `True` for every origin
string, so a connection upgrade is never rejected because of its
origin. -/
theorem check_origin_accepts_all (origin : String) : check_origin origin = true := rfl

/-- C8: every inbound text frame `m` yields exactly one reply frame whose
content is exactly `"message received "` followed by `m`; in particular
inbound `"ping"` yields exactly one outbound frame
`"message received ping"`. -/
theorem on_message_echoes (m : String) :
    on_message m = ["message received " ++ m] ∧
    (on_message m).length = 1 ∧
    on_message "ping" = ["message received ping"] :=
  ⟨rfl, rfl, rfl⟩

/-- C4: after every successful handoff the actions of `open` are exactly
configure-socket, bind-handler, write the verbatim acknowledgement, and
schedule the push loop; in particular the first frame ever written is the
acknowledgement and the loop is scheduled, never started inline. -/
theorem ack_frame_first (idArg : Option String) (reg : Registry)
    (h : (wsOpen idArg reg).outcome = OpenOutcome.sessionStarted) :
    firstFrame (wsOpen idArg reg).actions = some ackFrame ∧
    (wsOpen idArg reg).actions =
      [Action.setNodelay, Action.setHandler,
       Action.writeFrame ackFrame, Action.scheduleMonitor] ∧
    Action.runMonitorInline ∉ (wsOpen idArg reg).actions ∧
    ackFrame = "connected to monitor, transmitting data..." := by
  cases idArg with
  | none => simp [wsOpen, getArgument] at h
  | some t =>
      rcases hp : popWorker reg t with ⟨w?, reg'⟩
      cases w? with
      | none => simp [wsOpen, getArgument, hp] at h
      | some w =>
          refine ⟨?_, ?_, ?_, rfl⟩ <;> simp [wsOpen, getArgument, hp, firstFrame]

/-- Witness for C4 at a concrete registry and token. -/
theorem ack_frame_first_witness :
    firstFrame (wsOpen (some "t1") demoReg).actions = some ackFrame ∧
    Action.runMonitorInline ∉ (wsOpen (some "t1") demoReg).actions :=
  ⟨(ack_frame_first (some "t1") demoReg (by decide)).1,
   (ack_frame_first (some "t1") demoReg (by decide)).2.2.1⟩

/-- C1: when token `t` is registered, the first connection attempt with
`id=t` starts a session, binds the popped worker to it, and removes the
entry, and every later attempt with the same `t` observes not-found and
is closed without a session — the token can never be claimed twice. -/
theorem handoff_exactly_once (reg : Registry) (t : String) (w : Worker)
    (hnd : (reg.map Prod.fst).Nodup) (hw : lookupW reg t = some w) :
    (wsOpen (some t) reg).outcome = OpenOutcome.sessionStarted ∧
    (wsOpen (some t) reg).workerRef = some w.id ∧
    Action.setHandler ∈ (wsOpen (some t) reg).actions ∧
    lookupW ((wsOpen (some t) reg).registry) t = none ∧
    (∀ n : Nat,
      (nthAttempt t (n + 1) reg).outcome = OpenOutcome.closedInvalidId ∧
      (nthAttempt t (n + 1) reg).workerRef = none) := by
  rcases hp : popWorker reg t with ⟨w?, reg'⟩
  have hfst : w? = some w := by
    have := popWorker_fst reg t
    rw [hp] at this
    simpa [hw] using this
  subst hfst
  have hreg' : lookupW reg' t = none := by
    have := popWorker_lookup_none reg t hnd
    rw [hp] at this
    exact this
  refine ⟨?_, ?_, ?_, ?_, ?_⟩
  · simp [wsOpen, getArgument, hp]
  · simp [wsOpen, getArgument, hp]
  · simp [wsOpen, getArgument, hp]
  · simpa [wsOpen, getArgument, hp] using hreg'
  · intro n
    have hstep : (wsOpen (some t) reg).registry = reg' := by
      simp [wsOpen, getArgument, hp]
    have := nthAttempt_notFound t n reg' hreg'
    constructor
    · simp [nthAttempt, hstep, this]
    · simp [nthAttempt, hstep, this]

/-- Witness for C1 on the one-entry demonstration registry. -/
theorem handoff_exactly_once_witness :
    (wsOpen (some "t1") demoReg).outcome = OpenOutcome.sessionStarted ∧
    (nthAttempt "t1" 1 demoReg).outcome = OpenOutcome.closedInvalidId :=
  ⟨(handoff_exactly_once demoReg "t1" demoWorker (by decide) (by decide)).1,
   ((handoff_exactly_once demoReg "t1" demoWorker (by decide) (by decide)).2.2.2.2 0).1⟩

lemma lookupS_workerClose (store : Store) (wid : String) :
    lookupS (workerClose wid store) wid =
      if (lookupS store wid).isSome then some WorkerState.closed else none := by
  induction store with
  | nil => rfl
  | cons p rest ih =>
      obtain ⟨k, st⟩ := p
      by_cases h : k = wid
      · subst h
        rw [show workerClose k ((k, st) :: rest) =
              (k, WorkerState.closed) :: workerClose k rest by simp [workerClose]]
        simp [lookupS]
      · rw [show workerClose wid ((k, st) :: rest) = (k, st) :: workerClose wid rest by
            simp [workerClose, h]]
        simp [lookupS, h, ih]

/-- C2: on a socket close from any cause, `on_close` runs (and a second
close event is a no-op, so it runs exactly once), the weak worker
reference is resolved, and a still-live worker is closed; consequently
the session's worker cannot remain `bound` once the socket has closed. -/
theorem socket_close_cleans_up (s : Session) (store : Store)
    (h : s.socketOpen = true) :
    (socketClose s store).1.onCloseRan = true ∧
    (socketClose s store).1.socketOpen = false ∧
    (∀ wid, s.ref = some wid →
        lookupS (socketClose s store).2 wid =
          if (lookupS store wid).isSome then some WorkerState.closed else none) ∧
    (∀ wid st, s.ref = some wid →
        lookupS (socketClose s store).2 wid = some st → st = WorkerState.closed) ∧
    (s.ref = none → (socketClose s store).2 = store) ∧
    socketClose (socketClose s store).1 (socketClose s store).2 = socketClose s store := by
  have hmain : ∀ wid, s.ref = some wid →
      lookupS (on_close s.ref store) wid =
        if (lookupS store wid).isSome then some WorkerState.closed else none := by
    intro wid hw
    rw [hw]
    cases hx : lookupS store wid with
    | none => simp [on_close, resolveRef, hx]
    | some st => simp [on_close, resolveRef, hx, lookupS_workerClose]
  refine ⟨by simp [socketClose, h], by simp [socketClose, h], ?_, ?_, ?_, ?_⟩
  · intro wid hw
    simpa [socketClose, h] using hmain wid hw
  · intro wid st hw hl
    have := hmain wid hw
    rw [show (socketClose s store).2 = on_close s.ref store by simp [socketClose, h]] at hl
    rw [hl] at this
    by_cases hx : (lookupS store wid).isSome
    · simp [hx] at this
      exact this
    · simp [hx] at this
  · intro hr
    simp [socketClose, h, on_close, resolveRef, hr]
  · simp [socketClose, h]

/-- Witness for C2: an open session whose weak reference targets a live
bound worker. -/
theorem socket_close_cleans_up_witness :
    (socketClose ⟨true, false, some "w1"⟩ [("w1", WorkerState.bound)]).1.onCloseRan = true ∧
    lookupS (socketClose ⟨true, false, some "w1"⟩ [("w1", WorkerState.bound)]).2 "w1" =
      some WorkerState.closed :=
  ⟨(socket_close_cleans_up ⟨true, false, some "w1"⟩ [("w1", WorkerState.bound)] rfl).1,
   by simpa using
     (socket_close_cleans_up ⟨true, false, some "w1"⟩ [("w1", WorkerState.bound)] rfl).2.2.1
       "w1" rfl⟩

/-- A demonstration script whose first iteration's collector call raises
`StreamClosedError`. -/
def demoScript : List Iter := [⟨Except.error Exc.streamClosed, Except.ok ()⟩]

/-- C3: in both push loops, a run that terminates with exception `e`
absorbs it silently exactly when `e` is one of the two terminal I/O
conditions, propagates it otherwise, and in either case the `finally`
block's close runs. -/
theorem loop_teardown (script : List Iter) (fs gs : List String) (e f : Exc)
    (hm : monitorBody script = some (fs, e))
    (hn : networkBody script = some (gs, f)) :
    monitorRun script =
      some { frames := fs
             raised := if e = Exc.streamClosed ∨ e = Exc.wsClosed then none else some e
             closeCalled := true } ∧
    networkRun script =
      some { frames := gs
             raised := if f = Exc.streamClosed ∨ f = Exc.wsClosed then none else some f
             closeCalled := true } := by
  constructor
  · simp only [monitorRun, hm, Option.map_some]
    cases e <;> simp [monitorAbsorbs]
  · simp only [networkRun, hn, Option.map_some]
    cases f <;> simp [networkAbsorbs]

/-- Witness for C3: a script ending in `StreamClosedError` is absorbed
and close still runs, in both loops. -/
theorem loop_teardown_witness :
    monitorRun demoScript = some { frames := [], raised := none, closeCalled := true } ∧
    networkRun demoScript = some { frames := [], raised := none, closeCalled := true } := by
  have := loop_teardown demoScript [] [] Exc.streamClosed Exc.streamClosed rfl rfl
  simpa using this

lemma monitorTrace_mem (script : List Iter) :
    ∀ a ∈ monitorTrace script,
      a = Action.submitPool ∨ a = Action.awaitResult ∨
      ∃ s, a = Action.writeFrame s ∧ s ≠ "" ∧ ∃ it ∈ script, it.collect = Except.ok s := by
  induction script with
  | nil =>
      intro a ha
      simp [monitorTrace] at ha
  | cons it rest ih =>
      intro a ha
      simp only [monitorTrace, List.mem_cons] at ha
      rcases ha with rfl | rfl | hT
      · exact Or.inl rfl
      · exact Or.inr (Or.inl rfl)
      · cases hc : it.collect with
        | error e =>
            rw [hc] at hT
            simp at hT
        | ok data =>
            rw [hc] at hT
            by_cases hd : data = ""
            · simp only [hd, if_pos rfl] at hT
              rcases ih a hT with h1 | h2 | ⟨s, hs1, hs2, it', hit', hs3⟩
              · exact Or.inl h1
              · exact Or.inr (Or.inl h2)
              · exact Or.inr (Or.inr ⟨s, hs1, hs2, it', List.mem_cons_of_mem it hit', hs3⟩)
            · simp only [if_neg hd, List.mem_cons] at hT
              rcases hT with rfl | hT2
              · exact Or.inr (Or.inr ⟨data, rfl, hd, it, List.mem_cons_self it rest, hc⟩)
              · cases hw : it.write with
                | error e =>
                    rw [hw] at hT2
                    simp at hT2
                | ok u =>
                    rw [hw] at hT2
                    rcases ih a hT2 with h1 | h2 | ⟨s, hs1, hs2, it', hit', hs3⟩
                    · exact Or.inl h1
                    · exact Or.inr (Or.inl h2)
                    · exact Or.inr (Or.inr ⟨s, hs1, hs2, it', List.mem_cons_of_mem it hit', hs3⟩)

/-- C5: the host-metrics loop never sleeps and never calls a collector
directly; every frame it writes is a non-empty collector result (empty
results are skipped), every iteration starts by submitting to the pool
and awaiting, and a non-empty result is written immediately after. -/
theorem monitor_loop_shape (script : List Iter) :
    (∀ ms, Action.sleep ms ∉ monitorTrace script) ∧
    Action.collectDirect ∉ monitorTrace script ∧
    (∀ s, Action.writeFrame s ∈ monitorTrace script →
        s ≠ "" ∧ ∃ it ∈ script, it.collect = Except.ok s) ∧
    (∀ (it : Iter) (rest : List Iter) (s : String),
        it.collect = Except.ok s → s ≠ "" →
        (monitorTrace (it :: rest)).take 3 =
          [Action.submitPool, Action.awaitResult, Action.writeFrame s]) ∧
    (∀ (it : Iter) (rest : List Iter), it.collect = Except.ok "" →
        monitorTrace (it :: rest) =
          Action.submitPool :: Action.awaitResult :: monitorTrace rest) ∧
    (∀ (it : Iter) (rest : List Iter) (e : Exc), it.collect = Except.error e →
        monitorTrace (it :: rest) = [Action.submitPool, Action.awaitResult]) := by
  refine ⟨?_, ?_, ?_, ?_, ?_, ?_⟩
  · intro ms hmem
    rcases monitorTrace_mem script _ hmem with h | h | ⟨s, hs, _, _⟩
    · simp at h
    · simp at h
    · simp at hs
  · intro hmem
    rcases monitorTrace_mem script _ hmem with h | h | ⟨s, hs, _, _⟩
    · simp at h
    · simp at h
    · simp at hs
  · intro s hmem
    rcases monitorTrace_mem script _ hmem with h | h | ⟨s', hs1, hs2, it', hit', hs3⟩
    · simp at h
    · simp at h
    · cases hs1
      exact ⟨hs2, it', hit', hs3⟩
  · intro it rest s hc hs
    simp [monitorTrace, hc, hs]
  · intro it rest hc
    simp [monitorTrace, hc]
  · intro it rest e hc
    simp [monitorTrace, hc]

/-- Witness for C5: a non-empty snapshot is written right after the pool
round-trip, and an empty one is skipped. -/
theorem monitor_loop_shape_witness :
    (monitorTrace [⟨Except.ok "x", Except.ok ()⟩]).take 3 =
      [Action.submitPool, Action.awaitResult, Action.writeFrame "x"] ∧
    monitorTrace [⟨Except.ok "", Except.ok ()⟩] =
      Action.submitPool :: Action.awaitResult :: monitorTrace [] :=
  ⟨(monitor_loop_shape []).2.2.2.1 ⟨Except.ok "x", Except.ok ()⟩ [] "x" rfl (by decide),
   (monitor_loop_shape []).2.2.2.2.1 ⟨Except.ok "", Except.ok ()⟩ [] rfl⟩

lemma networkTrace_mem (script : List Iter) :
    ∀ a ∈ networkTrace script,
      a = Action.collectDirect ∨
      ∃ s, a = Action.writeFrame s ∧ ∃ it ∈ script, it.collect = Except.ok s := by
  induction script with
  | nil =>
      intro a ha
      simp [networkTrace] at ha
  | cons it rest ih =>
      intro a ha
      simp only [networkTrace, List.mem_cons] at ha
      rcases ha with rfl | hT
      · exact Or.inl rfl
      · cases hc : it.collect with
        | error e =>
            rw [hc] at hT
            simp at hT
        | ok data =>
            rw [hc] at hT
            simp only [List.mem_cons] at hT
            rcases hT with rfl | hT2
            · exact Or.inr ⟨data, rfl, it, List.mem_cons_self it rest, hc⟩
            · cases hw : it.write with
              | error e =>
                  rw [hw] at hT2
                  simp at hT2
              | ok u =>
                  rw [hw] at hT2
                  rcases ih a hT2 with h1 | ⟨s, hs1, it', hit', hs3⟩
                  · exact Or.inl h1
                  · exact Or.inr ⟨s, hs1, it', List.mem_cons_of_mem it hit', hs3⟩

/-- C6: the network-metrics loop never submits to the Execution Pool and
never sleeps; every iteration awaits the collector directly on the
scheduler and writes every fetched snapshot unconditionally (empty ones
included), and its absorbed-exception set is exactly the host-metrics
loop's. -/
theorem network_loop_shape (script : List Iter) :
    Action.submitPool ∉ networkTrace script ∧
    (∀ ms, Action.sleep ms ∉ networkTrace script) ∧
    (∀ (it : Iter) (rest : List Iter) (s : String), it.collect = Except.ok s →
        (networkTrace (it :: rest)).take 2 =
          [Action.collectDirect, Action.writeFrame s]) ∧
    (∀ (it : Iter) (rest : List Iter) (e : Exc), it.collect = Except.error e →
        networkTrace (it :: rest) = [Action.collectDirect]) ∧
    (∀ e, networkAbsorbs e = monitorAbsorbs e) := by
  refine ⟨?_, ?_, ?_, ?_, ?_⟩
  · intro hmem
    rcases networkTrace_mem script _ hmem with h | ⟨s, hs, _⟩
    · simp at h
    · simp at hs
  · intro ms hmem
    rcases networkTrace_mem script _ hmem with h | ⟨s, hs, _⟩
    · simp at h
    · simp at hs
  · intro it rest s hc
    simp [networkTrace, hc]
  · intro it rest e hc
    simp [networkTrace, hc]
  · intro e
    cases e <;> rfl

/-- Witness for C6: even an empty snapshot is written by the network
loop. -/
theorem network_loop_shape_witness :
    (networkTrace [⟨Except.ok "", Except.ok ()⟩]).take 2 =
      [Action.collectDirect, Action.writeFrame ""] :=
  (network_loop_shape []).2.2.1 ⟨Except.ok "", Except.ok ()⟩ [] "" rfl

/-- C7 counterexample: a present-but-empty `id` does not produce a
protocol error; it goes through the not-found path and the connection is
closed with the diagnostic reason instead. -/
theorem empty_id_not_protocol_error :
    (wsOpen (some "") []).outcome = OpenOutcome.closedInvalidId ∧
    (wsOpen (some "") []).outcome ≠ OpenOutcome.protocolError := by
  exact ⟨rfl, by decide⟩

/-- C7 (amended): a missing `id` raises the missing-argument protocol
error, a present-but-empty `id` (with no worker registered under the
empty string) is closed as an invalid worker id, and in both cases no
session is created: the socket is not configured, no frame is written,
no loop is scheduled, no worker reference is stored, and the registry is
untouched. -/
theorem missing_or_empty_id_no_session (idArg : Option String) (reg : Registry)
    (h : idArg = none ∨ (idArg = some "" ∧ lookupW reg "" = none)) :
    (idArg = none → (wsOpen idArg reg).outcome = OpenOutcome.protocolError) ∧
    (idArg = some "" → (wsOpen idArg reg).outcome = OpenOutcome.closedInvalidId) ∧
    (wsOpen idArg reg).outcome ≠ OpenOutcome.sessionStarted ∧
    Action.setNodelay ∉ (wsOpen idArg reg).actions ∧
    (∀ s, Action.writeFrame s ∉ (wsOpen idArg reg).actions) ∧
    Action.scheduleMonitor ∉ (wsOpen idArg reg).actions ∧
    (wsOpen idArg reg).workerRef = none ∧
    (wsOpen idArg reg).registry = reg := by
  rcases h with rfl | ⟨rfl, hl⟩
  · refine ⟨fun _ => rfl, by simp, ?_, ?_, ?_, ?_, rfl, rfl⟩ <;>
      simp [wsOpen, getArgument]
  · have hpop := popWorker_miss reg "" hl
    refine ⟨by simp, fun _ => ?_, ?_, ?_, ?_, ?_, ?_, ?_⟩ <;>
      simp [wsOpen, getArgument, hpop]

/-- Witness for C7's amended statement at concrete requests. -/
theorem missing_or_empty_id_no_session_witness :
    (wsOpen none []).outcome = OpenOutcome.protocolError ∧
    (wsOpen (some "") []).outcome = OpenOutcome.closedInvalidId ∧
    (wsOpen (some "") []).workerRef = none :=
  ⟨(missing_or_empty_id_no_session none [] (Or.inl rfl)).1 rfl,
   (missing_or_empty_id_no_session (some "") [] (Or.inr ⟨rfl, rfl⟩)).2.1 rfl,
   (missing_or_empty_id_no_session (some "") [] (Or.inr ⟨rfl, rfl⟩)).2.2.2.2.2.2.1⟩

lemma okOutstanding_monitorTrace (script : List Iter) :
    okOutstanding 0 (monitorTrace script) = true := by
  induction script with
  | nil => rfl
  | cons it rest ih =>
      cases hc : it.collect with
      | error e => simp [monitorTrace, hc, okOutstanding]
      | ok data =>
          by_cases hd : data = ""
          · simpa [monitorTrace, hc, hd, okOutstanding] using ih
          · cases hw : it.write with
            | error e => simp [monitorTrace, hc, hd, hw, okOutstanding]
            | ok u => simpa [monitorTrace, hc, hd, hw, okOutstanding] using ih

/-- C9: the shared executor has exactly 16 slots; a submission never
errors and never drops work (the pool's pending count grows by exactly
the submitted task); at saturation the task is queued while the caller
stays suspended awaiting it; and along any monitor-loop trace at most
one submission per session is ever outstanding, so pending work cannot
accumulate beyond one task per connection. -/
theorem pool_sixteen_slots_no_drop :
    mkExecutor.maxWorkers = 16 ∧
    (∀ p : Pool, (Pool.submit p).pending = p.pending + 1) ∧
    (∀ p : Pool, p.running = p.maxWorkers →
        Pool.submit p = { p with queued := p.queued + 1 }) ∧
    (∀ script : List Iter, okOutstanding 0 (monitorTrace script) = true) := by
  refine ⟨rfl, ?_, ?_, okOutstanding_monitorTrace⟩
  · intro p
    unfold Pool.submit Pool.pending
    split <;> simp <;> omega
  · intro p hp
    simp [Pool.submit, hp]

/-- Witness for C9: a saturated 16-slot pool queues the new task, and a
one-iteration monitor trace keeps at most one submission outstanding. -/
theorem pool_sixteen_slots_no_drop_witness :
    Pool.submit { maxWorkers := 16, running := 16, queued := 0 } =
      { maxWorkers := 16, running := 16, queued := 1 } ∧
    okOutstanding 0 (monitorTrace [⟨Except.ok "x", Except.ok ()⟩]) = true :=
  ⟨by simpa using
      pool_sixteen_slots_no_drop.2.2.1 { maxWorkers := 16, running := 16, queued := 0 } rfl,
   pool_sixteen_slots_no_drop.2.2.2 [⟨Except.ok "x", Except.ok ()⟩]⟩

end PiMonitor
